import Mathlib

/-!
# Verification of the customer CRUD service (`backend/app.py`)

Shallow embedding of the Flask/SQLAlchemy customer service. The store is a
list of rows plus an autoincrement counter; JSON payload fields are modelled
as `Option (Option v)` where the outer `Option` is presence of the key and the
inner `Option` is JSON `null` versus a value. Monetary amounts (`Float` in the
source) are modelled as exact rationals; timestamps are abstract `Nat` instants
threaded into `create` as a parameter (`datetime.utcnow`).

The `Customer` SQLAlchemy model declares `name`/`email` as `nullable=False`
and `email` as `unique=True`; SQLite enforces these at commit time, and the
handlers' broad `except Exception` turns any such `IntegrityError` into a
rollback plus a 500 response. The embedding therefore checks these declared
column constraints when a write is committed.

`Customer.query.get_or_404` raises werkzeug's `NotFound`, which is a subclass
of `Exception`; inside the handlers' `try` block it is caught by
`except Exception as e`, giving a 500 response whose body is `str(e)` rather
than a 404 response. The embedding reproduces this actual behaviour.
-/

/-- A persisted row of the `customer` table. Column types follow the model
declaration: `status`, `total_orders`, `total_spent` are nullable columns,
so they are `Option`-valued; `name`/`email` are `Option`-valued in the row
type as well, with the `nullable=False` constraint enforced at commit. -/
structure Customer where
  id : Nat
  name : Option String
  email : Option String
  status : Option String
  total_orders : Option Int
  total_spent : Option ℚ
  join_date : Nat
  deriving DecidableEq, Repr

/-- The camelCase wire object produced by `Customer.to_dict`. -/
structure WireObj where
  id : Nat
  name : Option String
  email : Option String
  status : Option String
  totalOrders : Option Int
  totalSpent : Option ℚ
  joinDate : Nat
  deriving DecidableEq, Repr

/-- Serialization `Customer.to_dict`: renames the snake_case columns to the camelCase wire
fields (`join_date.isoformat()` is modelled as the abstract instant itself). -/
def Customer.to_dict (c : Customer) : WireObj :=
  { id := c.id, name := c.name, email := c.email, status := c.status,
    totalOrders := c.total_orders, totalSpent := c.total_spent,
    joinDate := c.join_date }

/-- The SQLite store: the rows of the `customer` table in insertion order,
plus the next autoincrement primary key. -/
structure Store where
  rows : List Customer
  nextId : Nat
  deriving DecidableEq, Repr

/-- A JSON request body for create/update. Each field is
`none` when the key is absent, `some none` when the key is bound to JSON
`null`, and `some (some v)` when bound to a value. -/
structure Payload where
  name : Option (Option String) := none
  email : Option (Option String) := none
  status : Option (Option String) := none
  totalOrders : Option (Option Int) := none
  totalSpent : Option (Option ℚ) := none
  deriving DecidableEq, Repr

/-- A JSON response body. `integrityMsg` stands for the exception text of a
constraint violation surfaced through `str(e)`. -/
inductive Body where
  | empty : Body
  | error (msg : String) : Body
  | wire (w : WireObj) : Body
  | list (ws : List WireObj) : Body
  | stats (totalCustomers : Nat) (activeCustomers : Nat)
      (totalRevenue : ℚ) (avgOrderValue : ℚ) : Body
  deriving DecidableEq, Repr

/-- Message `str(e)` for the `werkzeug.exceptions.NotFound` raised by `get_or_404`. -/
def notFoundMsg : String :=
  "404 Not Found: The requested URL was not found on the server. If you entered the URL manually please check your spelling and try again."

/-- Abstract stand-in for the `sqlalchemy.exc.IntegrityError` message text
produced when a commit violates a declared column constraint. -/
def integrityMsg : String := "IntegrityError"

/-- Python `dict.get(k, default)` on a payload field: the default is used only
when the key is absent; a key bound to `null` yields `None`. -/
def pyGetD {α : Type} (field : Option (Option α)) (dflt : Option α) : Option α :=
  match field with
  | none => dflt
  | some v => v

/-- Truthiness of `data.get(k)` for a string field: `not data.get(k)` is true
exactly when the key is absent, bound to `null`, or bound to `""`. -/
def truthy (field : Option (Option String)) : Bool :=
  match field with
  | some (some s) => s ≠ ""
  | _ => false

/-- Endpoint `GET /api/customers`: serialize every row in store order. -/
def get_customers (st : Store) : Nat × Body :=
  (200, Body.list (st.rows.map Customer.to_dict))

/-- Endpoint `POST /api/customers` (`create_customer`), with the creation instant
`now` standing for `datetime.utcnow`. Validation and the duplicate-email
check run before any mutation; otherwise the row is inserted with the
autoincrement id and the column defaults of the constructor call. -/
def create_customer (st : Store) (now : Nat) (p : Payload) : Nat × Body × Store :=
  if ¬ truthy p.name ∨ ¬ truthy p.email then
    (400, Body.error "Name and email are required", st)
  else
    match st.rows.find? (fun c => c.email == pyGetD p.email none) with
    | some _ => (400, Body.error "Email already exists", st)
    | none =>
      let c : Customer :=
        { id := st.nextId,
          name := pyGetD p.name none,
          email := pyGetD p.email none,
          status := pyGetD p.status (some "active"),
          total_orders := pyGetD p.totalOrders (some 0),
          total_spent := pyGetD p.totalSpent (some 0),
          join_date := now }
      (201, Body.wire c.to_dict, { rows := st.rows ++ [c], nextId := st.nextId + 1 })

/-- The field assignments of `update_customer`: `data.get(field, current)`
keeps the stored value only when the key is absent. `id` and `join_date` are
never assigned. -/
def applyUpdate (c : Customer) (p : Payload) : Customer :=
  { c with
    name := pyGetD p.name c.name,
    email := pyGetD p.email c.email,
    status := pyGetD p.status c.status,
    total_orders := pyGetD p.totalOrders c.total_orders,
    total_spent := pyGetD p.totalSpent c.total_spent }

/-- The declared column constraints checked by SQLite when the row `c` is
committed by an UPDATE: `name`/`email` are `nullable=False` and `email` is
`unique=True` against every other row. -/
def updateCommitOK (others : List Customer) (c : Customer) : Bool :=
  c.name.isSome && c.email.isSome && others.all (fun o => o.email != c.email)

/-- Endpoint `PUT /api/customers/<id>` (`update_customer`). A missing id makes
`get_or_404` raise `NotFound`, which the handler's `except Exception` catches,
returning 500 with `str(e)`; a commit violating a declared constraint raises
`IntegrityError`, likewise caught: rollback and 500. Otherwise the row with
primary key `cid` is overwritten and serialized with 200. -/
def update_customer (st : Store) (cid : Nat) (p : Payload) : Nat × Body × Store :=
  match st.rows.find? (fun c => c.id == cid) with
  | none => (500, Body.error notFoundMsg, st)
  | some c =>
    let c' := applyUpdate c p
    if updateCommitOK (st.rows.filter (fun o => o.id != cid)) c' then
      (200, Body.wire c'.to_dict,
        { st with rows := st.rows.map (fun o => if o.id == cid then c' else o) })
    else
      (500, Body.error integrityMsg, st)

/-- Endpoint `DELETE /api/customers/<id>` (`delete_customer`). A missing id gives the
same caught-`NotFound` 500 as update; otherwise the row with primary key
`cid` is deleted and an empty 204 returned. -/
def delete_customer (st : Store) (cid : Nat) : Nat × Body × Store :=
  match st.rows.find? (fun c => c.id == cid) with
  | none => (500, Body.error notFoundMsg, st)
  | some _ =>
    (204, Body.empty, { st with rows := st.rows.filter (fun o => o.id != cid) })

/-- SQL `SUM(total_spent)` followed by `scalar() or 0`: NULL cells are
ignored by SUM, and an empty (or all-NULL) sum comes back as 0. -/
def sumSpent (rows : List Customer) : ℚ :=
  (rows.map (fun c => c.total_spent.getD 0)).sum

/-- SQL `SUM(total_orders)` followed by `scalar() or 0`. -/
def sumOrders (rows : List Customer) : Int :=
  (rows.map (fun c => c.total_orders.getD 0)).sum

/-- Endpoint `GET /api/stats` (`get_stats`). -/
def get_stats (st : Store) : Nat × Body :=
  let total_customers := st.rows.length
  let active_customers := (st.rows.filter (fun c => c.status == some "active")).length
  let total_revenue := sumSpent st.rows
  let total_orders := sumOrders st.rows
  let avg_order_value := if total_orders > 0 then total_revenue / total_orders else 0
  (200, Body.stats total_customers active_customers total_revenue avg_order_value)

/-- Endpoint `GET /api/health` (`health_check`). -/
def health_check : Nat × String × String :=
  (200, "healthy", "API is running")

/-- The five sample rows of the `__main__` block, with the autoincrement ids
1..5 they receive and `join_date` defaulted to the startup instant `now`. -/
def sample_customers (now : Nat) : List Customer :=
  [ { id := 1, name := some "John Doe", email := some "john@example.com",
      status := some "active", total_orders := some 15,
      total_spent := some (2850.50 : ℚ), join_date := now },
    { id := 2, name := some "Jane Smith", email := some "jane@example.com",
      status := some "active", total_orders := some 8,
      total_spent := some (1250.00 : ℚ), join_date := now },
    { id := 3, name := some "Bob Johnson", email := some "bob@example.com",
      status := some "inactive", total_orders := some 3,
      total_spent := some (450.75 : ℚ), join_date := now },
    { id := 4, name := some "Alice Brown", email := some "alice@example.com",
      status := some "active", total_orders := some 22,
      total_spent := some (4200.25 : ℚ), join_date := now },
    { id := 5, name := some "Charlie Wilson", email := some "charlie@example.com",
      status := some "pending", total_orders := some 0,
      total_spent := some (0.00 : ℚ), join_date := now } ]

/-- The `__main__` seeding step: if the table is empty, insert the five
sample rows in one commit. -/
def seedIfEmpty (st : Store) (now : Nat) : Store :=
  if st.rows.length == 0 then { rows := sample_customers now, nextId := 6 } else st

/-- The freshly created store: no rows, next primary key 1. -/
def emptyStore : Store := { rows := [], nextId := 1 }

/-- The single row of the one-customer test store `st1`. -/
def c1 : Customer :=
  { id := 1, name := some "A", email := some "a@x", status := some "active",
    total_orders := some 0, total_spent := some 0, join_date := 0 }

/-- A store holding exactly the customer `c1`. -/
def st1 : Store := { rows := [c1], nextId := 2 }

/-- A two-customer store with distinct emails, for exercising the
`unique=True` column constraint on update. -/
def st2 : Store :=
  { rows :=
      [ c1,
        { id := 2, name := some "B", email := some "b@x", status := some "active",
          total_orders := some 0, total_spent := some 0, join_date := 0 } ],
    nextId := 3 }

example : (create_customer emptyStore 7
    { name := some (some "A"), email := some (some "a@x") }).1 = 201 := by decide
example : (create_customer emptyStore 7 { name := some (some "A") }).1 = 400 := by decide
example : (update_customer emptyStore 1 {}).1 = 500 := by decide

/-- C1: for every customer id for which no persisted customer exists, the
update and delete handlers do NOT return 404: `get_or_404` raises werkzeug's
`NotFound`, the handlers' `except Exception` catches it, and each returns
HTTP 500 with `str(e)` as the error body. The store is unchanged. This
theorem records the actual (buggy) behaviour at any absent id. -/
theorem missing_id_update_delete_give_500 (st : Store) (cid : Nat) (p : Payload)
    (h : ∀ c ∈ st.rows, c.id ≠ cid) :
    update_customer st cid p = (500, Body.error notFoundMsg, st) ∧
    delete_customer st cid = (500, Body.error notFoundMsg, st) := by
  have hfind : st.rows.find? (fun c => c.id == cid) = none := by
    rw [List.find?_eq_none]
    intro c hc
    simpa using h c hc
  constructor
  · unfold update_customer
    rw [hfind]
  · unfold delete_customer
    rw [hfind]

/-- Witness for `missing_id_update_delete_give_500`: the empty store has no
customer with id 1, and both handlers answer 500 there. -/
theorem missing_id_update_delete_give_500_witness :
    update_customer emptyStore 1 {} = (500, Body.error notFoundMsg, emptyStore) ∧
    delete_customer emptyStore 1 = (500, Body.error notFoundMsg, emptyStore) :=
  missing_id_update_delete_give_500 emptyStore 1 {} (by decide)

/-- C3: a create request whose name or email is missing or empty yields
HTTP 400 with `{error: "Name and email are required"}` and leaves the store
untouched, whatever the store state. -/
theorem create_missing_fields_validation (st : Store) (now : Nat) (p : Payload)
    (h : p.name = none ∨ p.name = some (some "") ∨
         p.email = none ∨ p.email = some (some "")) :
    create_customer st now p = (400, Body.error "Name and email are required", st) := by
  unfold create_customer
  rw [if_pos]
  rcases h with h | h | h | h
  · exact Or.inl (by simp [truthy, h])
  · exact Or.inl (by simp [truthy, h])
  · exact Or.inr (by simp [truthy, h])
  · exact Or.inr (by simp [truthy, h])

/-- Witness for `create_missing_fields_validation`: a payload with a name but
no email is rejected on the seeded store. -/
theorem create_missing_fields_validation_witness :
    create_customer (seedIfEmpty emptyStore 0) 3 { name := some (some "Zed") } =
      (400, Body.error "Name and email are required", seedIfEmpty emptyStore 0) :=
  create_missing_fields_validation (seedIfEmpty emptyStore 0) 3
    { name := some (some "Zed") } (Or.inr (Or.inr (Or.inl rfl)))

/-- C2 counterexample: the store `st1` contains a customer whose email
`"a@x"` equals the email of the create request `{email: "a@x"}` (which has
no name), yet the handler returns the validation error body, not
`{error: "Email already exists"}` — the missing-field check runs first. -/
theorem create_dup_email_without_name_not_conflict :
    (∃ c ∈ st1.rows, c.email = pyGetD ({ email := some (some "a@x") } : Payload).email none) ∧
    create_customer st1 9 { email := some (some "a@x") } =
      (400, Body.error "Name and email are required", st1) ∧
    (create_customer st1 9 { email := some (some "a@x") }).2.1 ≠
      Body.error "Email already exists" := by
  refine ⟨⟨c1, by decide, by decide⟩, by decide, by decide⟩

/-- C2 (amended): if additionally the request's name and email are present
and non-empty, a duplicate email yields HTTP 400 with
`{error: "Email already exists"}` and the store is unchanged. -/
theorem create_duplicate_email_conflict (st : Store) (now : Nat) (p : Payload)
    (hn : truthy p.name) (he : truthy p.email)
    (hdup : ∃ c ∈ st.rows, c.email = pyGetD p.email none) :
    create_customer st now p = (400, Body.error "Email already exists", st) := by
  have hfind : (st.rows.find? (fun c => c.email == pyGetD p.email none)).isSome := by
    rw [List.find?_isSome]
    obtain ⟨c, hc, hce⟩ := hdup
    exact ⟨c, hc, by simp [hce]⟩
  unfold create_customer
  rw [if_neg (by simp [hn, he])]
  obtain ⟨c', hc'⟩ := Option.isSome_iff_exists.mp hfind
  rw [hc']

/-- Witness for `create_duplicate_email_conflict`: creating a second
customer with `c1`'s email on `st1` is rejected as a conflict. -/
theorem create_duplicate_email_conflict_witness :
    create_customer st1 5 { name := some (some "B"), email := some (some "a@x") } =
      (400, Body.error "Email already exists", st1) :=
  create_duplicate_email_conflict st1 5
    { name := some (some "B"), email := some (some "a@x") }
    (by decide) (by decide) ⟨c1, by decide, by decide⟩

/-- C4: a create request with non-empty name and email and a fresh email
persists exactly one new customer appended to the store, with `joinDate`
equal to the creation instant, `status` defaulted to `"active"` when the
payload omits it, and `totalOrders`/`totalSpent` defaulted to 0/0.0 when
absent; that customer's wire object is returned with HTTP 201. -/
theorem create_valid_persists_one (st : Store) (now : Nat) (p : Payload)
    (hn : truthy p.name) (he : truthy p.email)
    (hfresh : ∀ c ∈ st.rows, c.email ≠ pyGetD p.email none) :
    ∃ c : Customer,
      create_customer st now p =
        (201, Body.wire c.to_dict, { rows := st.rows ++ [c], nextId := st.nextId + 1 }) ∧
      c.join_date = now ∧
      (p.status = none → c.status = some "active") ∧
      (p.totalOrders = none → c.total_orders = some 0) ∧
      (p.totalSpent = none → c.total_spent = some 0) := by
  have hfind : st.rows.find? (fun c => c.email == pyGetD p.email none) = none := by
    rw [List.find?_eq_none]
    intro c hc
    simpa using hfresh c hc
  refine ⟨{ id := st.nextId, name := pyGetD p.name none, email := pyGetD p.email none,
            status := pyGetD p.status (some "active"),
            total_orders := pyGetD p.totalOrders (some 0),
            total_spent := pyGetD p.totalSpent (some 0), join_date := now },
          ?_, rfl, ?_, ?_, ?_⟩
  · unfold create_customer
    rw [if_neg (by simp [hn, he]), hfind]
  · intro h; simp [pyGetD, h]
  · intro h; simp [pyGetD, h]
  · intro h; simp [pyGetD, h]

/-- Witness for `create_valid_persists_one`: a minimal valid request on the
empty store. -/
theorem create_valid_persists_one_witness :
    ∃ c : Customer,
      create_customer emptyStore 4 { name := some (some "A"), email := some (some "a@x") } =
        (201, Body.wire c.to_dict, { rows := emptyStore.rows ++ [c], nextId := emptyStore.nextId + 1 }) ∧
      c.join_date = 4 ∧
      (({ name := some (some "A"), email := some (some "a@x") } : Payload).status = none → c.status = some "active") ∧
      (({ name := some (some "A"), email := some (some "a@x") } : Payload).totalOrders = none → c.total_orders = some 0) ∧
      (({ name := some (some "A"), email := some (some "a@x") } : Payload).totalSpent = none → c.total_spent = some 0) :=
  create_valid_persists_one emptyStore 4
    { name := some (some "A"), email := some (some "a@x") }
    (by decide) (by decide) (by decide)

/-- C5 counterexample: updating customer 1 of `st2` with the email of
customer 2 does not return HTTP 200 with the updated wire object — the
`unique=True` column constraint on `email` makes the commit raise
`IntegrityError`, which the handler turns into a rollback and a 500; the
store is unchanged. -/
theorem update_duplicate_email_is_500 :
    update_customer st2 1 { email := some (some "b@x") } =
      (500, Body.error integrityMsg, st2) ∧
    (update_customer st2 1 { email := some (some "b@x") }).1 ≠ 200 := by
  refine ⟨by decide, by decide⟩

/-- C5 (amended): for an existing customer and a partial payload whose
application keeps `name` and `email` non-null and whose email does not
collide with any other row's email, the update overwrites exactly the
fields present in the payload, leaves every omitted field (and always `id`
and `joinDate`) at its previous value, performs no handler-level
uniqueness or non-emptiness validation on the new values, and returns the
updated wire object with HTTP 200. -/
theorem update_overwrites_present_fields (st : Store) (cid : Nat) (p : Payload)
    (c : Customer)
    (hfind : st.rows.find? (fun r => r.id == cid) = some c)
    (hname : (pyGetD p.name c.name).isSome)
    (hemail : (pyGetD p.email c.email).isSome)
    (huniq : ∀ o ∈ st.rows, o.id ≠ cid → o.email ≠ pyGetD p.email c.email) :
    ∃ c' : Customer,
      update_customer st cid p =
        (200, Body.wire c'.to_dict,
          { st with rows := st.rows.map (fun o => if o.id == cid then c' else o) }) ∧
      c'.id = c.id ∧ c'.join_date = c.join_date ∧
      (p.name = none → c'.name = c.name) ∧
      (∀ v, p.name = some v → c'.name = v) ∧
      (p.email = none → c'.email = c.email) ∧
      (∀ v, p.email = some v → c'.email = v) ∧
      (p.status = none → c'.status = c.status) ∧
      (∀ v, p.status = some v → c'.status = v) ∧
      (p.totalOrders = none → c'.total_orders = c.total_orders) ∧
      (∀ v, p.totalOrders = some v → c'.total_orders = v) ∧
      (p.totalSpent = none → c'.total_spent = c.total_spent) ∧
      (∀ v, p.totalSpent = some v → c'.total_spent = v) := by
  have hok : updateCommitOK (st.rows.filter (fun o => o.id != cid)) (applyUpdate c p) = true := by
    unfold updateCommitOK applyUpdate
    simp only [Bool.and_eq_true, List.all_eq_true]
    refine ⟨⟨by simpa using hname, by simpa using hemail⟩, ?_⟩
    intro o ho
    rw [List.mem_filter] at ho
    have := huniq o ho.1 (by simpa using ho.2)
    simpa using this
  refine ⟨applyUpdate c p, ?_, rfl, rfl, ?_, ?_, ?_, ?_, ?_, ?_, ?_, ?_, ?_, ?_⟩
  · unfold update_customer
    rw [hfind]
    simp only [hok, if_true]
  all_goals first
    | (intro h; simp [applyUpdate, pyGetD, h])
    | (intro v h; simp [applyUpdate, pyGetD, h])

/-- Witness for `update_overwrites_present_fields`: setting `c1`'s name to
the empty string succeeds with 200 (no non-emptiness validation). -/
theorem update_overwrites_present_fields_witness :
    ∃ c' : Customer,
      update_customer st1 1 { name := some (some "") } =
        (200, Body.wire c'.to_dict,
          { st1 with rows := st1.rows.map (fun o => if o.id == 1 then c' else o) }) ∧
      c'.id = c1.id ∧ c'.join_date = c1.join_date ∧
      (({ name := some (some "") } : Payload).name = none → c'.name = c1.name) ∧
      (∀ v, ({ name := some (some "") } : Payload).name = some v → c'.name = v) ∧
      (({ name := some (some "") } : Payload).email = none → c'.email = c1.email) ∧
      (∀ v, ({ name := some (some "") } : Payload).email = some v → c'.email = v) ∧
      (({ name := some (some "") } : Payload).status = none → c'.status = c1.status) ∧
      (∀ v, ({ name := some (some "") } : Payload).status = some v → c'.status = v) ∧
      (({ name := some (some "") } : Payload).totalOrders = none → c'.total_orders = c1.total_orders) ∧
      (∀ v, ({ name := some (some "") } : Payload).totalOrders = some v → c'.total_orders = v) ∧
      (({ name := some (some "") } : Payload).totalSpent = none → c'.total_spent = c1.total_spent) ∧
      (∀ v, ({ name := some (some "") } : Payload).totalSpent = some v → c'.total_spent = v) :=
  update_overwrites_present_fields st1 1 { name := some (some "") } c1
    (by decide) (by decide) (by decide) (by decide)

/-- C6: the stats endpoint returns, with HTTP 200, the number of persisted
customers, the count of rows whose status is exactly `"active"`, the sum of
`totalSpent` (NULL cells counting 0, hence 0 on an empty store), and an
average order value that is sum(totalSpent)/sum(totalOrders) when
sum(totalOrders) is positive and 0 otherwise — no division by zero occurs. -/
theorem stats_formulas (st : Store) :
    get_stats st =
      (200, Body.stats
        st.rows.length
        (st.rows.countP (fun c => c.status == some "active"))
        ((st.rows.map (fun c => c.total_spent.getD 0)).sum)
        (if 0 < (st.rows.map (fun c => c.total_orders.getD 0)).sum then
            ((st.rows.map (fun c => c.total_spent.getD 0)).sum) /
              (((st.rows.map (fun c => c.total_orders.getD 0)).sum : Int) : ℚ)
          else 0)) := by
  unfold get_stats sumSpent sumOrders
  rw [List.countP_eq_length_filter]

/-- C7: on an empty store the startup block seeds exactly five customers
with the literal sample values, and stats over exactly these rows returns
totalCustomers=5, activeCustomers=3, totalRevenue=8751.50,
avgOrderValue=8751.50/48. -/
theorem seed_then_stats :
    (seedIfEmpty emptyStore 0).rows.map
        (fun c => (c.name, c.email, c.status, c.total_orders, c.total_spent)) =
      [ (some "John Doe", some "john@example.com", some "active", some 15, some (2850.50 : ℚ)),
        (some "Jane Smith", some "jane@example.com", some "active", some 8, some (1250.00 : ℚ)),
        (some "Bob Johnson", some "bob@example.com", some "inactive", some 3, some (450.75 : ℚ)),
        (some "Alice Brown", some "alice@example.com", some "active", some 22, some (4200.25 : ℚ)),
        (some "Charlie Wilson", some "charlie@example.com", some "pending", some 0, some (0.00 : ℚ)) ] ∧
    (seedIfEmpty emptyStore 0).rows.length = 5 ∧
    get_stats (seedIfEmpty emptyStore 0) =
      (200, Body.stats 5 3 (8751.50 : ℚ) ((8751.50 : ℚ) / 48)) := by
  refine ⟨rfl, rfl, ?_⟩
  unfold get_stats seedIfEmpty emptyStore sample_customers sumSpent sumOrders
  norm_num [List.filter]
  decide

/-- With pairwise-distinct primary keys, the SQL `DELETE ... WHERE id = c.id`
(filtering out the rows with that id) removes exactly the member row `c`. -/
theorem filter_ne_id_eq_erase (rows : List Customer) (c : Customer)
    (hnodup : (rows.map (fun r => r.id)).Nodup) (hc : c ∈ rows) :
    rows.filter (fun o => o.id != c.id) = rows.erase c := by
  induction rows with
  | nil => cases hc
  | cons r rest ih =>
    rw [List.map_cons, List.nodup_cons] at hnodup
    rcases List.mem_cons.mp hc with rfl | hmem
    · rw [List.erase_cons_head, List.filter_cons]
      simp only [bne_self_eq_false, Bool.false_eq_true, if_false]
      apply List.filter_eq_self.mpr
      intro o ho
      have hne : o.id ≠ c.id := fun h => hnodup.1 (h ▸ List.mem_map_of_mem _ ho)
      simpa using hne
    · have hidne : r.id ≠ c.id := by
        intro h
        exact hnodup.1 (h ▸ List.mem_map_of_mem (fun r => r.id) hmem)
      have hne : r ≠ c := fun h => hidne (by rw [h])
      rw [List.filter_cons, if_pos (by simpa using hidne),
        List.erase_cons_tail (by simpa using hne), ih hnodup.2 hmem]

/-- C8: deleting an existing customer returns HTTP 204 with an empty body
and removes exactly that customer: the resulting store is the previous
sequence with that row erased, the row is absent afterwards, every other
row is still present unchanged, the row count drops by one, and a
subsequent list returns exactly the remaining rows' wire objects. -/
theorem delete_removes_exactly (st : Store) (c : Customer)
    (hc : c ∈ st.rows) (hnodup : (st.rows.map (fun r => r.id)).Nodup) :
    delete_customer st c.id =
      (204, Body.empty, { rows := st.rows.erase c, nextId := st.nextId }) ∧
    c ∉ st.rows.erase c ∧
    (∀ o ∈ st.rows, o ≠ c → o ∈ st.rows.erase c) ∧
    (st.rows.erase c).length = st.rows.length - 1 ∧
    get_customers { rows := st.rows.erase c, nextId := st.nextId } =
      (200, Body.list ((st.rows.erase c).map Customer.to_dict)) := by
  have hrowsnodup : st.rows.Nodup := hnodup.of_map
  have hfind : (st.rows.find? (fun r => r.id == c.id)).isSome := by
    rw [List.find?_isSome]
    exact ⟨c, hc, by simp⟩
  obtain ⟨c₀, h₀⟩ := Option.isSome_iff_exists.mp hfind
  refine ⟨?_, ?_, ?_, ?_, rfl⟩
  · unfold delete_customer
    rw [h₀, filter_ne_id_eq_erase st.rows c hnodup hc]
  · intro habs
    exact ((hrowsnodup.mem_erase_iff).mp habs).1 rfl
  · intro o ho hone
    exact (List.mem_erase_of_ne hone).mpr ho
  · exact List.length_erase_of_mem hc

/-- Witness for `delete_removes_exactly`: deleting `c1` from `st1`. -/
theorem delete_removes_exactly_witness :
    delete_customer st1 c1.id =
      (204, Body.empty, { rows := st1.rows.erase c1, nextId := st1.nextId }) ∧
    c1 ∉ st1.rows.erase c1 ∧
    (∀ o ∈ st1.rows, o ≠ c1 → o ∈ st1.rows.erase c1) ∧
    (st1.rows.erase c1).length = st1.rows.length - 1 ∧
    get_customers { rows := st1.rows.erase c1, nextId := st1.nextId } =
      (200, Body.list ((st1.rows.erase c1).map Customer.to_dict)) :=
  delete_removes_exactly st1 c1 (by decide) (by decide)

/-- An API request as applied to the store, forgetting status and body:
the three mutating endpoints with their JSON payloads (`now` is the
request instant for create). -/
inductive Op where
  | create (now : Nat) (p : Payload) : Op
  | update (cid : Nat) (p : Payload) : Op
  | delete (cid : Nat) : Op
  deriving DecidableEq, Repr

/-- The store left behind by one request. -/
def applyOp (st : Store) : Op → Store
  | .create now p => (create_customer st now p).2.2
  | .update cid p => (update_customer st cid p).2.2
  | .delete cid => (delete_customer st cid).2.2

/-- The store after a sequence of requests. -/
def runOps (st : Store) (ops : List Op) : Store :=
  ops.foldl applyOp st

/-- A payload field that supplies `totalOrders` only as an absent key or a
non-negative value. -/
def benignOrdersField : Option (Option Int) → Bool
  | none => true
  | some none => false
  | some (some n) => 0 ≤ n

/-- A payload field that supplies `totalSpent` only as an absent key or a
non-negative value. -/
def benignSpentField : Option (Option ℚ) → Bool
  | none => true
  | some none => false
  | some (some q) => 0 ≤ q

/-- A payload whose `totalOrders`/`totalSpent` are absent or non-negative. -/
def benignPayload (p : Payload) : Bool :=
  benignOrdersField p.totalOrders && benignSpentField p.totalSpent

/-- A request whose payload (if any) is benign. -/
def benignOp : Op → Bool
  | .create _ p => benignPayload p
  | .update _ p => benignPayload p
  | .delete _ => true

/-- A row holding a non-negative order count and a non-negative amount. -/
def rowNonneg (c : Customer) : Prop :=
  (∃ n, c.total_orders = some n ∧ 0 ≤ n) ∧ (∃ q, c.total_spent = some q ∧ 0 ≤ q)

/-- Every persisted customer of the store satisfies `rowNonneg`. -/
def storeNonneg (st : Store) : Prop :=
  ∀ c ∈ st.rows, rowNonneg c

/-- The store after a create is either unchanged (validation or conflict
failure) or the old rows with one new row appended, whose counters come
from the payload with defaults 0/0.0. -/
theorem create_store_cases (st : Store) (now : Nat) (p : Payload) :
    (create_customer st now p).2.2 = st ∨
    ∃ c : Customer,
      (create_customer st now p).2.2 = { rows := st.rows ++ [c], nextId := st.nextId + 1 } ∧
      c.total_orders = pyGetD p.totalOrders (some 0) ∧
      c.total_spent = pyGetD p.totalSpent (some 0) := by
  unfold create_customer
  by_cases hval : ¬ truthy p.name ∨ ¬ truthy p.email
  · rw [if_pos hval]
    exact Or.inl rfl
  · rw [if_neg hval]
    rcases hfind : st.rows.find? (fun c => c.email == pyGetD p.email none) with _ | c
    · rw [hfind]
      exact Or.inr ⟨_, rfl, rfl, rfl⟩
    · rw [hfind]
      exact Or.inl rfl

/-- The store after an update is either unchanged (missing id or failed
commit) or has the row with the primary key overwritten by the applied
payload. -/
theorem update_store_cases (st : Store) (cid : Nat) (p : Payload) :
    (update_customer st cid p).2.2 = st ∨
    ∃ c : Customer,
      st.rows.find? (fun r => r.id == cid) = some c ∧
      (update_customer st cid p).2.2 =
        { st with rows := st.rows.map (fun o => if o.id == cid then applyUpdate c p else o) } := by
  unfold update_customer
  rcases hfind : st.rows.find? (fun r => r.id == cid) with _ | c
  · rw [hfind]
    exact Or.inl rfl
  · rw [hfind]
    by_cases hok : updateCommitOK (st.rows.filter (fun o => o.id != cid)) (applyUpdate c p) = true
    · simp only [hok, if_true]
      exact Or.inr ⟨c, rfl, rfl⟩
    · simp only [hok, if_false]
      exact Or.inl rfl

/-- The store after a delete is either unchanged (missing id) or the old
rows with the addressed primary key filtered out. -/
theorem delete_store_cases (st : Store) (cid : Nat) :
    (delete_customer st cid).2.2 = st ∨
    (delete_customer st cid).2.2 =
      { st with rows := st.rows.filter (fun o => o.id != cid) } := by
  unfold delete_customer
  rcases hfind : st.rows.find? (fun r => r.id == cid) with _ | c
  · rw [hfind]
    exact Or.inl rfl
  · rw [hfind]
    exact Or.inr rfl

/-- A benign `totalOrders` payload field applied over a non-negative stored
value yields a non-negative stored value. -/
theorem benignOrdersField_pyGetD (f : Option (Option Int)) (old : Option Int)
    (hben : benignOrdersField f = true) (hold : ∃ n, old = some n ∧ 0 ≤ n) :
    ∃ n, pyGetD f old = some n ∧ 0 ≤ n := by
  rcases f with _ | ⟨_ | n⟩
  · simpa [pyGetD] using hold
  · simp [benignOrdersField] at hben
  · exact ⟨n, by simp [pyGetD], by simpa [benignOrdersField] using hben⟩

/-- A benign `totalSpent` payload field applied over a non-negative stored
value yields a non-negative stored value. -/
theorem benignSpentField_pyGetD (f : Option (Option ℚ)) (old : Option ℚ)
    (hben : benignSpentField f = true) (hold : ∃ q, old = some q ∧ 0 ≤ q) :
    ∃ q, pyGetD f old = some q ∧ 0 ≤ q := by
  rcases f with _ | ⟨_ | q⟩
  · simpa [pyGetD] using hold
  · simp [benignSpentField] at hben
  · exact ⟨q, by simp [pyGetD], by simpa [benignSpentField] using hben⟩

/-- One benign request preserves `storeNonneg`. -/
theorem applyOp_storeNonneg (st : Store) (op : Op)
    (hinv : storeNonneg st) (hben : benignOp op) :
    storeNonneg (applyOp st op) := by
  cases op with
  | create now p =>
    simp only [benignOp, benignPayload, Bool.and_eq_true] at hben
    show storeNonneg (create_customer st now p).2.2
    rcases create_store_cases st now p with heq | ⟨c, heq, hords, hspent⟩
    · rw [heq]; exact hinv
    · rw [heq]
      intro o ho
      rcases List.mem_append.mp ho with hmem | hmem
      · exact hinv o hmem
      · rcases List.mem_singleton.mp hmem with rfl
        refine ⟨?_, ?_⟩
        · rw [hords]
          exact benignOrdersField_pyGetD p.totalOrders (some 0) hben.1 ⟨0, rfl, le_refl 0⟩
        · rw [hspent]
          exact benignSpentField_pyGetD p.totalSpent (some 0) hben.2 ⟨0, rfl, le_refl 0⟩
  | update cid p =>
    simp only [benignOp, benignPayload, Bool.and_eq_true] at hben
    show storeNonneg (update_customer st cid p).2.2
    rcases update_store_cases st cid p with heq | ⟨c, hfind, heq⟩
    · rw [heq]; exact hinv
    · rw [heq]
      intro o ho
      simp only [List.mem_map] at ho
      obtain ⟨o₀, ho₀, rfl⟩ := ho
      have hc : rowNonneg c := hinv c (List.mem_of_find?_eq_some hfind)
      by_cases hid : o₀.id == cid
      · rw [if_pos hid]
        refine ⟨?_, ?_⟩
        · show ∃ n, pyGetD p.totalOrders c.total_orders = some n ∧ 0 ≤ n
          exact benignOrdersField_pyGetD p.totalOrders c.total_orders hben.1 hc.1
        · show ∃ q, pyGetD p.totalSpent c.total_spent = some q ∧ 0 ≤ q
          exact benignSpentField_pyGetD p.totalSpent c.total_spent hben.2 hc.2
      · rw [if_neg hid]
        exact hinv o₀ ho₀
  | delete cid =>
    show storeNonneg (delete_customer st cid).2.2
    rcases delete_store_cases st cid with heq | heq
    · rw [heq]; exact hinv
    · rw [heq]
      intro o ho
      exact hinv o (List.mem_filter.mp ho).1

/-- The empty store satisfies the non-negativity invariant. -/
theorem emptyStore_storeNonneg : storeNonneg emptyStore := by
  intro c hc
  cases hc

/-- The freshly seeded store satisfies the non-negativity invariant. -/
theorem seeded_storeNonneg (n : Nat) : storeNonneg (seedIfEmpty emptyStore n) := by
  intro c hc
  have h : (seedIfEmpty emptyStore n).rows = sample_customers n := rfl
  rw [h] at hc
  simp only [sample_customers, List.mem_cons, List.not_mem_nil, or_false] at hc
  rcases hc with rfl | rfl | rfl | rfl | rfl
  · exact ⟨⟨15, rfl, by norm_num⟩, ⟨2850.50, rfl, by norm_num⟩⟩
  · exact ⟨⟨8, rfl, by norm_num⟩, ⟨1250.00, rfl, by norm_num⟩⟩
  · exact ⟨⟨3, rfl, by norm_num⟩, ⟨450.75, rfl, by norm_num⟩⟩
  · exact ⟨⟨22, rfl, by norm_num⟩, ⟨4200.25, rfl, by norm_num⟩⟩
  · exact ⟨⟨0, rfl, by norm_num⟩, ⟨0.00, rfl, by norm_num⟩⟩

/-- A sequence of benign requests preserves the invariant. -/
theorem runOps_storeNonneg (ops : List Op) :
    ∀ st : Store, storeNonneg st → (∀ op ∈ ops, benignOp op) →
      storeNonneg (runOps st ops) := by
  induction ops with
  | nil => intro st hinv _; exact hinv
  | cons op rest ih =>
    intro st hinv hben
    rw [runOps, List.foldl_cons]
    exact ih (applyOp st op)
      (applyOp_storeNonneg st op hinv (hben op (List.mem_cons_self op rest)))
      (fun o ho => hben o (List.mem_cons_of_mem op ho))

/-- C9 counterexample: the create handler performs no sign validation, so a
single create request carrying `totalOrders = -1` on the empty store
persists a customer with a negative order count — the claimed invariant
fails on a reachable state. -/
theorem create_negative_orders_persisted :
    ∃ c ∈ (create_customer emptyStore 0
        { name := some (some "A"), email := some (some "a@x"),
          totalOrders := some (some (-1)) }).2.2.rows,
      c.total_orders = some (-1) ∧ ¬ (0 : Int) ≤ -1 := by decide

/-- C9 (amended): starting from the empty store or a freshly seeded store,
every sequence of create/update/delete requests whose payloads supply
`totalOrders`/`totalSpent` only as absent keys or non-negative values
leaves every persisted customer with a non-negative `totalOrders` and a
non-negative `totalSpent`. -/
theorem reachable_stores_nonneg (st0 : Store) (ops : List Op)
    (h0 : st0 = emptyStore ∨ ∃ n, st0 = seedIfEmpty emptyStore n)
    (hben : ∀ op ∈ ops, benignOp op) :
    storeNonneg (runOps st0 ops) := by
  have hinv0 : storeNonneg st0 := by
    rcases h0 with rfl | ⟨n, rfl⟩
    · exact emptyStore_storeNonneg
    · exact seeded_storeNonneg n
  exact runOps_storeNonneg ops st0 hinv0 hben

/-- Witness for `reachable_stores_nonneg`: one valid create on the empty
store keeps all counters non-negative. -/
theorem reachable_stores_nonneg_witness :
    storeNonneg (runOps emptyStore
      [Op.create 0 { name := some (some "A"), email := some (some "a@x") },
       Op.update 1 { totalOrders := some (some 7) },
       Op.delete 2]) :=
  reachable_stores_nonneg emptyStore
    [Op.create 0 { name := some (some "A"), email := some (some "a@x") },
     Op.update 1 { totalOrders := some (some 7) },
     Op.delete 2]
    (Or.inl rfl) (by decide)

/-- The commit of an UPDATE succeeds when the new row keeps a non-null name
and email and its email collides with no other row. -/
theorem updateCommitOK_of_fresh (st : Store) (cid : Nat) (c' : Customer)
    (hname : c'.name.isSome) (hemail : c'.email.isSome)
    (huniq : ∀ o ∈ st.rows, o.id ≠ cid → o.email ≠ c'.email) :
    updateCommitOK (st.rows.filter (fun o => o.id != cid)) c' = true := by
  unfold updateCommitOK
  simp only [Bool.and_eq_true, List.all_eq_true]
  refine ⟨⟨hname, hemail⟩, ?_⟩
  intro o ho
  rw [List.mem_filter] at ho
  have := huniq o ho.1 (by simpa using ho.2)
  simpa using this

/-- C10 counterexample: `st1`'s customer 1 has name "A"; the update payload
`{name: null}` is present-but-null, yet the stored name is NOT overwritten
with null: the `nullable=False` column makes the commit fail, the handler
answers 500 and the row keeps its old name. -/
theorem update_null_name_not_applied :
    update_customer st1 1 { name := some none } =
      (500, Body.error integrityMsg, st1) ∧
    (update_customer st1 1 { name := some none }).2.2.rows.map
        (fun c => c.name) = [some "A"] := by
  refine ⟨by decide, by decide⟩

/-- C10 (amended): for an existing customer, a present-but-null field is
not treated as omitted. For `status`, `totalOrders` and `totalSpent` the
stored field is overwritten with null (provided the row still commits);
for `name` or `email` the resulting null violates `nullable=False`, the
commit fails and the handler returns 500 with the store unchanged. -/
theorem update_null_field_semantics (st : Store) (cid : Nat) (p : Payload)
    (c : Customer)
    (hfind : st.rows.find? (fun r => r.id == cid) = some c) :
    ((pyGetD p.name c.name = none ∨ pyGetD p.email c.email = none) →
      update_customer st cid p = (500, Body.error integrityMsg, st)) ∧
    ((pyGetD p.name c.name).isSome → (pyGetD p.email c.email).isSome →
      (∀ o ∈ st.rows, o.id ≠ cid → o.email ≠ pyGetD p.email c.email) →
      update_customer st cid p =
        (200, Body.wire (applyUpdate c p).to_dict,
          { st with rows := st.rows.map (fun o => if o.id == cid then applyUpdate c p else o) }) ∧
      (p.status = some none → (applyUpdate c p).status = none) ∧
      (p.totalOrders = some none → (applyUpdate c p).total_orders = none) ∧
      (p.totalSpent = some none → (applyUpdate c p).total_spent = none)) := by
  constructor
  · intro hnull
    have hfalse : updateCommitOK (st.rows.filter (fun o => o.id != cid))
        (applyUpdate c p) = false := by
      unfold updateCommitOK
      rcases hnull with hnull | hnull
      · have h1 : (applyUpdate c p).name = none := by simp [applyUpdate, hnull]
        simp [h1]
      · have h1 : (applyUpdate c p).email = none := by simp [applyUpdate, hnull]
        simp [h1]
    unfold update_customer
    rw [hfind]
    simp only [hfalse, Bool.false_eq_true, if_false]
  · intro hname hemail huniq
    have hok : updateCommitOK (st.rows.filter (fun o => o.id != cid)) (applyUpdate c p) = true :=
      updateCommitOK_of_fresh st cid (applyUpdate c p)
        (by simpa [applyUpdate] using hname)
        (by simpa [applyUpdate] using hemail)
        (fun o ho hne => by simpa [applyUpdate] using huniq o ho hne)
    refine ⟨?_, ?_, ?_, ?_⟩
    · unfold update_customer
      rw [hfind]
      simp only [hok, if_true]
    · intro h; simp [applyUpdate, pyGetD, h]
    · intro h; simp [applyUpdate, pyGetD, h]
    · intro h; simp [applyUpdate, pyGetD, h]

/-- Witness for `update_null_field_semantics`: on `st1`, a `{status: null}`
update succeeds and stores NULL, while a `{name: null}` update fails with
500 and leaves the store unchanged. -/
theorem update_null_field_semantics_witness :
    update_customer st1 1 { name := some none } =
      (500, Body.error integrityMsg, st1) ∧
    (applyUpdate c1 { status := some none }).status = none ∧
    update_customer st1 1 { status := some none } =
      (200, Body.wire (applyUpdate c1 { status := some none }).to_dict,
        { st1 with rows := st1.rows.map (fun o => if o.id == 1 then applyUpdate c1 { status := some none } else o) }) :=
  ⟨(update_null_field_semantics st1 1 { name := some none } c1 (by decide)).1
      (Or.inl rfl),
   ((update_null_field_semantics st1 1 { status := some none } c1 (by decide)).2
      (by decide) (by decide) (by decide)).2.1 rfl,
   ((update_null_field_semantics st1 1 { status := some none } c1 (by decide)).2
      (by decide) (by decide) (by decide)).1⟩
